import Mathlib

/-!
Verification of the connection-handling and shared-state synchronization
engine of a small HTTP file server (three Python variants: a single-threaded
server, a multithreaded server, and a unified multi-mode server with a hit
counter and a per-IP sliding-window rate limiter).

The definitions below are a shallow embedding of the Python sources.  Pure
string and path manipulation from the Python standard library
(posixpath.normpath, os.path.join, os.path.abspath, str.split, str.lstrip,
pathlib suffix, urllib.parse.unquote) is translated function by function;
the mutable global dictionaries (file_hits, rate_limits) become total
functions threaded through the handler; the filesystem is an abstract
structure of decidable observations.  Timestamps are rationals (seconds).
-/

/-! ## Python string and path primitives -/

/-- Characters treated as whitespace by Python str.split() with no
separator argument. -/
def isPyWhitespace (c : Char) : Bool :=
  c == ' ' || c == Char.ofNat 9 || c == Char.ofNat 10 || c == Char.ofNat 13 ||
  c == Char.ofNat 11 || c == Char.ofNat 12

/-- Token accumulation loop for Python str.split() with no arguments. -/
def pySplitChars : List Char → List Char → List String
  | cur, [] => if cur = [] then [] else [String.mk cur.reverse]
  | cur, c :: rest =>
    if isPyWhitespace c then
      if cur = [] then pySplitChars [] rest
      else String.mk cur.reverse :: pySplitChars [] rest
    else pySplitChars (c :: cur) rest

/-- Python str.split() with no arguments: split on runs of whitespace and
drop empty pieces. -/
def pySplit (s : String) : List String :=
  pySplitChars [] s.data

/-- Everything before the first CRLF: the request line, that is, the
lines[0] taken from request.split of the CRLF separator. -/
def firstLineChars : List Char → List Char
  | [] => []
  | '\r' :: '\n' :: _ => []
  | c :: rest => c :: firstLineChars rest

/-- The first line of the received request. -/
def firstLine (s : String) : String :=
  String.mk (firstLineChars s.data)

/-- Python str.startswith, a plain string-prefix test. -/
def pyStartsWith (s pre : String) : Bool :=
  pre.data.isPrefixOf s.data

/-- Python str.endswith, a plain string-suffix test. -/
def pyEndsWith (s suf : String) : Bool :=
  suf.data.isSuffixOf s.data

/-- Python str.split on the '/' separator, keeping empty pieces. -/
def splitSlashChars : List Char → List Char → List String
  | cur, [] => [String.mk cur.reverse]
  | cur, '/' :: rest => String.mk cur.reverse :: splitSlashChars [] rest
  | cur, c :: rest => splitSlashChars (c :: cur) rest

/-- Split a path string on '/'. -/
def splitSlash (s : String) : List String :=
  splitSlashChars [] s.data

/-- Join path components back with '/'. -/
def joinSlash : List String → String
  | [] => ""
  | [x] => x
  | x :: rest => x ++ "/" ++ joinSlash rest

/-- Python str.lstrip("/"): remove every leading '/' character. -/
def lstripSlash (s : String) : String :=
  String.mk (s.data.dropWhile (fun c => c == '/'))

/-- The component-processing loop of posixpath.normpath: drop empty and "."
components, let ".." cancel a previous real component, keep leading ".."
components of a relative path. -/
def normParts (initialSlashes : Nat) : List String → List String → List String
  | acc, [] => acc
  | acc, comp :: rest =>
    if comp = "" ∨ comp = "." then normParts initialSlashes acc rest
    else if comp ≠ ".." ∨ (initialSlashes = 0 ∧ acc = []) ∨
        (acc ≠ [] ∧ acc.getLast? = some "..") then
      normParts initialSlashes (acc ++ [comp]) rest
    else if acc ≠ [] then normParts initialSlashes acc.dropLast rest
    else normParts initialSlashes acc rest

/-- posixpath.normpath, as used by os.path.normpath on POSIX. -/
def normpath (path : String) : String :=
  if path = "" then "." else
  let initialSlashes : Nat :=
    if pyStartsWith path "/" then
      if pyStartsWith path "//" ∧ ¬ pyStartsWith path "///" then 2 else 1
    else 0
  let comps := splitSlash path
  let newComps := normParts initialSlashes [] comps
  let joined := joinSlash newComps
  let p := String.mk (List.replicate initialSlashes '/') ++ joined
  if p = "" then "." else p

/-- posixpath.join restricted to two arguments, as used by os.path.join in
the servers. -/
def pyJoin (a b : String) : String :=
  if pyStartsWith b "/" then b
  else if a = "" ∨ pyEndsWith a "/" then a ++ b
  else a ++ "/" ++ b

/-- os.path.abspath on POSIX: join with the working directory when the path
is relative, then normalize. -/
def abspath (cwd path : String) : String :=
  if pyStartsWith path "/" then normpath path else normpath (pyJoin cwd path)

/-- The final name component of a path, following pathlib PurePosixPath:
empty and "." components are dropped during parsing. -/
def pathName (p : String) : String :=
  (((splitSlash p).filter (fun c => decide (c ≠ "" ∧ c ≠ "."))).getLastD "")

/-- Index of the last '.' in a list of characters, if any. -/
def lastDotIdx : List Char → Option Nat
  | [] => none
  | c :: cs =>
    match lastDotIdx cs with
    | some i => some (i + 1)
    | none => if c = '.' then some 0 else none

/-- pathlib PurePosixPath suffix: the extension of the final component,
empty when the last dot is leading or trailing. -/
def pySuffix (p : String) : String :=
  let name := pathName p
  match lastDotIdx name.data with
  | some i => if 0 < i ∧ i < name.length - 1 then String.mk (name.data.drop i) else ""
  | none => ""

/-- Python str.lower restricted to the ASCII range used here. -/
def lowerStr (s : String) : String :=
  String.mk (s.data.map Char.toLower)

/-- Numeric value of a hexadecimal digit. -/
def hexDigitVal (c : Char) : Option Nat :=
  if '0' ≤ c ∧ c ≤ '9' then some (c.toNat - '0'.toNat)
  else if 'a' ≤ c ∧ c ≤ 'f' then some (c.toNat - 'a'.toNat + 10)
  else if 'A' ≤ c ∧ c ≤ 'F' then some (c.toNat - 'A'.toNat + 10)
  else none

/-- Character-level loop of urllib.parse.unquote: a '%' followed by two hex
digits decodes to the corresponding code point, anything else is passed
through unchanged.  This matches Python exactly on the single-byte escapes
the servers can receive in ASCII request lines. -/
def unquoteChars : List Char → List Char
  | [] => []
  | '%' :: c1 :: c2 :: rest =>
    match hexDigitVal c1, hexDigitVal c2 with
    | some h1, some h2 => Char.ofNat (16 * h1 + h2) :: unquoteChars rest
    | _, _ => '%' :: unquoteChars (c1 :: c2 :: rest)
  | c :: rest => c :: unquoteChars rest

/-- urllib.parse.unquote as applied to the request path. -/
def unquote (s : String) : String :=
  String.mk (unquoteChars s.data)

/-! ## Rate limiter (server.py, rate_limited) -/

/-- The rate_limits global: a defaultdict from source address to the list
of recent request timestamps, modelled as a total function with default
value the empty list. -/
def RateMap : Type := String → List ℚ

/-- Pointwise update of a string-keyed total map. -/
def setAt {α : Type} (m : String → α) (k : String) (v : α) : String → α :=
  fun j => if j = k then v else m j

/-- rate_limited from server.py: prune timestamps with now - ts < 1 kept,
store the pruned list, then either reject (True) when 5 or more survive,
or append now and admit (False).  The lock makes the whole body atomic;
sequential semantics is modelled here. -/
def rate_limited (now : ℚ) (ip_addr : String) (rate_limits : RateMap) : Bool × RateMap :=
  let timestamps := rate_limits ip_addr
  let pruned := timestamps.filter (fun ts => decide (now - ts < 1))
  let m := setAt rate_limits ip_addr pruned
  if 5 ≤ pruned.length then (true, m)
  else (false, setAt m ip_addr (pruned ++ [now]))

/-- Run a sequence of checks for one address, returning whether every check
admitted together with the final limiter state. -/
def checkRun (ip : String) (rl : RateMap) : List ℚ → Bool × RateMap
  | [] => (true, rl)
  | t :: ts =>
    let r := rate_limited t ip rl
    let rest := checkRun ip r.2 ts
    (!r.1 && rest.1, rest.2)

/-- The pruning step exactly as the specification sentence words it: drop
the timestamps strictly older than now - 1s, keep the rest. -/
def specPruned (now : ℚ) (l : List ℚ) : List ℚ :=
  l.filter (fun ts => decide (¬ ts < now - 1))

/-! ## Server data model -/

/-- The five operating modes of the unified server (SERVER_MODE). -/
inductive Mode where
  | single
  | multi
  | race
  | threadsafe
  | ratelimit
deriving DecidableEq

/-- Decidable observations of the filesystem made by the handlers:
os.path.exists, os.path.isdir, and whether opening and reading the file
raises (the unexpected internal fault path); the bytes served on success
stay symbolic in the response body. -/
structure FileSystem where
  fexists : String → Bool
  isDir : String → Bool
  readFails : String → Bool

/-- Response bodies.  Literal byte strings stay literal; the rendered
directory-listing HTML and streamed file contents are kept symbolic since
the renderer and reader are external collaborators. -/
inductive RBody where
  | text (s : String)
  | fileData (path : String)
  | dirListing (fsPath urlPath : String)
  | faultMsg (path : String)
deriving DecidableEq

/-- A response as assembled by send_response: status code, Content-Type,
and body. -/
structure Resp where
  status : Nat
  contentType : String
  body : RBody
deriving DecidableEq

/-- Shorthand constructor mirroring send_response call sites. -/
def resp (status : Nat) (contentType : String) (body : RBody) : Resp :=
  ⟨status, contentType, body⟩

/-- Observable events of one connection, in program order: the rate-limit
check, the path-resolution step (lines 146-154 of server.py), a hit-counter
increment, and the final response. -/
inductive Event where
  | rateCheck (rejected : Bool)
  | resolve (path : String)
  | counterInc (key : String)
  | respond (status : Nat)
deriving DecidableEq

/-- The shared mutable globals of server.py: the file_hits counter map and
the rate_limits map. -/
structure SState where
  fileHits : String → Nat
  rateLimits : RateMap

/-- Result of one handled connection: the response written back (none when
the client sent nothing), the updated shared state, and the event trace. -/
structure HResult where
  response : Option Resp
  state : SState
  events : List Event

/-- The literal 404 body of the unified server. -/
def notFoundBody : String :=
  "<!DOCTYPE html><html><body><h1>404 Not Found</h1><p>File not found.</p></body></html>"

/-- The literal 403 body of the unified and multithreaded servers. -/
def forbiddenBody : String :=
  "<!DOCTYPE html><html><body><h1>403 Forbidden</h1><p>Access denied.</p></body></html>"

/-- The literal unsupported-extension 404 body of the unified server. -/
def unsupportedBody : String := "File type not supported"

/-- The supported extension whitelist shared by all three servers. -/
def supportedExts : List String := [".html", ".htm", ".png", ".pdf"]

/-- get_content_type from the servers: extension to MIME type with an
octet-stream default. -/
def get_content_type (file_path : String) : String :=
  let ext := lowerStr (pySuffix file_path)
  if ext = ".html" ∨ ext = ".htm" then "text/html"
  else if ext = ".png" then "image/png"
  else if ext = ".pdf" then "application/pdf"
  else "application/octet-stream"

/-- Path construction of the unified server: "/" maps to the served root,
anything else is joined under it after stripping leading slashes, then
normalized (lines 146-152 of server.py). -/
def resolved_path (base_dir url_path : String) : String :=
  normpath (if url_path = "/" then base_dir else pyJoin base_dir (lstripSlash url_path))

/-- The shared serving tail of the unified server (directory listing,
extension check, file read), identical in the single, multi, and
counter-mode code paths. -/
def serveResource (fs : FileSystem) (file_path url_path : String) : Resp :=
  if fs.isDir file_path then
    resp 200 "text/html" (.dirListing file_path url_path)
  else if ¬ supportedExts.contains (lowerStr (pySuffix file_path)) then
    resp 404 "text/html" (.text unsupportedBody)
  else if fs.readFails file_path then
    resp 500 "text/plain" (.faultMsg file_path)
  else
    resp 200 (get_content_type file_path) (.fileData file_path)

/-- handle_client of the unified server after the request line has been
parsed and, in ratelimit mode, after an admitted rate check: method check,
path resolution, traversal check, existence check, and the mode-dependent
counter update before serving (lines 142-231 of server.py).  The
read-sleep-write increment of race mode and the locked read-sleep-write of
threadsafe and ratelimit modes have the same sequential denotation; their
interleaving semantics is modelled separately below. -/
def after_rate (mode : Mode) (fs : FileSystem) (cwd base_dir : String)
    (method url_path : String) (st : SState) (ev0 : List Event) : HResult :=
  if method ≠ "GET" then
    ⟨some (resp 405 "text/plain" (.text "Method Not Allowed")), st, ev0 ++ [.respond 405]⟩
  else
    let file_path := resolved_path base_dir url_path
    let base_dir_abs := abspath cwd base_dir
    let file_path_abs := abspath cwd file_path
    let ev := ev0 ++ [.resolve file_path]
    if ¬ pyStartsWith file_path_abs base_dir_abs then
      ⟨some (resp 403 "text/html" (.text forbiddenBody)), st, ev ++ [.respond 403]⟩
    else if ¬ fs.fexists file_path then
      ⟨some (resp 404 "text/html" (.text notFoundBody)), st, ev ++ [.respond 404]⟩
    else if mode = .single ∨ mode = .multi then
      let r := serveResource fs file_path url_path
      ⟨some r, st, ev ++ [.respond r.status]⟩
    else
      let current_count := st.fileHits file_path
      let st1 : SState := ⟨setAt st.fileHits file_path (current_count + 1), st.rateLimits⟩
      let ev1 := ev ++ [.counterInc file_path]
      let r := serveResource fs file_path url_path
      ⟨some r, st1, ev1 ++ [.respond r.status]⟩

/-- handle_client of the unified server (server.py): receive, parse the
request line, rate-check in ratelimit mode, then hand off.  cwd is the
process working directory consumed by os.path.abspath, now the clock value
consumed by the rate limiter. -/
def handle_client (mode : Mode) (fs : FileSystem) (cwd base_dir client_ip : String)
    (now : ℚ) (request : String) (st : SState) : HResult :=
  if request = "" then ⟨none, st, []⟩ else
  let request_line := pySplit (firstLine request)
  if request_line.length < 2 then
    ⟨some (resp 400 "text/plain" (.text "Bad Request")), st, [.respond 400]⟩
  else
    let method := request_line.headD ""
    let url_path := unquote (request_line.getD 1 "")
    if mode = .ratelimit then
      let r := rate_limited now client_ip st.rateLimits
      let st1 : SState := ⟨st.fileHits, r.2⟩
      if r.1 then
        ⟨some (resp 429 "text/plain" (.text "Too Many Requests")), st1,
          [.rateCheck true, .respond 429]⟩
      else
        after_rate mode fs cwd base_dir method url_path st1 [.rateCheck false]
    else
      after_rate mode fs cwd base_dir method url_path st []

/-- The literal 404 body of the multithreaded server. -/
def mtNotFoundBody : String :=
  "<!DOCTYPE html><html><body><h1>404 Not Found</h1><p>The requested file was not found.</p></body></html>"

/-- The literal unsupported-extension 404 body of the multithreaded server. -/
def mtUnsupportedBody : String :=
  "<!DOCTYPE html><html><body><h1>404 Not Found</h1><p>File type not supported. Server only supports HTML, PNG, and PDF files.</p></body></html>"

/-- handle_client of server_multithreaded.py: same request pipeline without
counters or rate limiting. -/
def handle_client_mt (fs : FileSystem) (cwd base_dir : String) (request : String) :
    Option Resp :=
  if request = "" then none else
  let request_line := pySplit (firstLine request)
  if request_line.length < 2 then some (resp 400 "text/plain" (.text "Bad Request")) else
  let method := request_line.headD ""
  let url_path := unquote (request_line.getD 1 "")
  if method ≠ "GET" then some (resp 405 "text/plain" (.text "Method Not Allowed")) else
  let file_path := resolved_path base_dir url_path
  let base_dir_abs := abspath cwd base_dir
  let file_path_abs := abspath cwd file_path
  if ¬ pyStartsWith file_path_abs base_dir_abs then
    some (resp 403 "text/html" (.text forbiddenBody))
  else if ¬ fs.fexists file_path then
    some (resp 404 "text/html" (.text mtNotFoundBody))
  else if fs.isDir file_path then
    some (resp 200 "text/html" (.dirListing file_path url_path))
  else if ¬ supportedExts.contains (lowerStr (pySuffix file_path)) then
    some (resp 404 "text/html" (.text mtUnsupportedBody))
  else if fs.readFails file_path then
    some (resp 500 "text/plain" (.faultMsg file_path))
  else
    some (resp 200 (get_content_type file_path) (.fileData file_path))

/-- The literal 404 body of the Lab 1 server. -/
def l1NotFoundBody : String :=
  "<html><body><h1>404 Not Found</h1><p>The requested file was not found.</p></body></html>"

/-- The literal unsupported-extension 404 body of the Lab 1 server. -/
def l1UnsupportedBody : String :=
  "<html><body><h1>404 Not Found</h1><p>File type not supported. Server only supports HTML, PNG, and PDF files.</p></body></html>"

/-- handle_request of the Lab 1 server: like the multithreaded variant but
a root request is redirected to /index.html, falling back to a listing of
the root when index.html is absent, and the 403 body is plain text. -/
def handle_request_l1 (fs : FileSystem) (cwd base_dir : String) (request : String) :
    Option Resp :=
  if request = "" then none else
  let parts := pySplit (firstLine request)
  if parts.length < 2 then some (resp 400 "text/plain" (.text "Bad Request")) else
  let method := parts.headD ""
  let url0 := unquote (parts.getD 1 "")
  if method ≠ "GET" then some (resp 405 "text/plain" (.text "Method Not Allowed")) else
  if url0 = "/" ∧ ¬ fs.fexists (pyJoin base_dir "index.html") then
    some (resp 200 "text/html" (.dirListing base_dir "/"))
  else
  let url_path := if url0 = "/" then "/index.html" else url0
  let file_path := normpath (pyJoin base_dir (lstripSlash url_path))
  let base_dir_abs := abspath cwd base_dir
  let file_path_abs := abspath cwd file_path
  if ¬ pyStartsWith file_path_abs base_dir_abs then
    some (resp 403 "text/plain" (.text "Forbidden"))
  else if ¬ fs.fexists file_path then
    some (resp 404 "text/html" (.text l1NotFoundBody))
  else if fs.isDir file_path then
    some (resp 200 "text/html" (.dirListing file_path url_path))
  else if ¬ supportedExts.contains (lowerStr (pySuffix file_path)) then
    some (resp 404 "text/html" (.text l1UnsupportedBody))
  else if fs.readFails file_path then
    some (resp 500 "text/plain" (.faultMsg file_path))
  else
    some (resp 200 (get_content_type file_path) (.fileData file_path))

/-- Status of a handler result, when a response was written. -/
def statusOf (r : HResult) : Option Nat :=
  r.response.map Resp.status

/-! ## Interleaving semantics of the locked counter increment (C1)

The threadsafe and ratelimit counter path of server.py is

    with counter_lock:
        current_count = file_hits.get(file_path, 0)
        time.sleep(0.001)
        file_hits[file_path] = current_count + 1

N concurrent handler threads incrementing one key are modelled as a
transition system: each thread acquires the store lock, reads the count
into a local, sleeps (the scheduling point between read and write), writes
the local plus one, and releases the lock.  The lock is the guard of the
acquire step; read and write are only enabled for the thread in its
critical section.  The scheduler is free to interleave the steps of
different threads arbitrarily. -/

/-- Progress of one incrementing thread through the locked
read-sleep-write sequence. -/
inductive TPhase where
  | idle
  | locked
  | readDone (v : Nat)
  | finished
deriving DecidableEq

/-- Shared state of the counter experiment: the stored count for the one
contended key, the thread currently holding counter_lock, and each
thread's progress. -/
structure CState (n : Nat) where
  count : Nat
  holder : Option (Fin n)
  phase : Fin n → TPhase

/-- Interleaving steps: any idle thread may acquire the free lock; the
lock holder may perform its read, and after the sleep its write, which
also releases the lock. -/
inductive CStep {n : Nat} : CState n → CState n → Prop where
  | acquire (s : CState n) (i : Fin n) (hh : s.holder = none) (hp : s.phase i = .idle) :
      CStep s ⟨s.count, some i, Function.update s.phase i .locked⟩
  | readCount (s : CState n) (i : Fin n) (hh : s.holder = some i) (hp : s.phase i = .locked) :
      CStep s ⟨s.count, s.holder, Function.update s.phase i (.readDone s.count)⟩
  | writeCount (s : CState n) (i : Fin n) (v : Nat) (hh : s.holder = some i)
      (hp : s.phase i = .readDone v) :
      CStep s ⟨v + 1, none, Function.update s.phase i .finished⟩

/-- Initial state: the key has never been requested (count 0 by the
defaultdict), the lock is free, no thread has started. -/
def initCState (n : Nat) : CState n :=
  ⟨0, none, fun _ => .idle⟩

/-- States reachable by interleaving the N threads. -/
def CReach (n : Nat) (s : CState n) : Prop :=
  Relation.ReflTransGen CStep (initCState n) s

/-- Number of threads whose increment has completed. -/
def doneCount {n : Nat} (s : CState n) : Nat :=
  (Finset.univ.filter (fun j => s.phase j = TPhase.finished)).card

/-- Inductive invariant of the locked counter: the stored count equals the
number of completed increments, and the lock discipline holds. -/
def CInv {n : Nat} (s : CState n) : Prop :=
  s.count = doneCount s ∧
  (∀ i, s.phase i = .locked → s.holder = some i) ∧
  (∀ i v, s.phase i = .readDone v → s.holder = some i ∧ v = s.count) ∧
  (∀ i, s.holder = some i →
    ∀ j, j ≠ i → s.phase j = .idle ∨ s.phase j = .finished) ∧
  (s.holder = none → ∀ j, s.phase j = .idle ∨ s.phase j = .finished)

/-! ## The two counter code paths as action sequences (C7) -/

/-- The elementary actions appearing in the counter code paths of
handle_client. -/
inductive CAction where
  | lockAcquire
  | lockRelease
  | readCount
  | sleepMs
  | writeCount
deriving DecidableEq

/-- Race mode counter path (server.py lines 206-209):
read, sleep 1ms, write, with no lock. -/
def racePath : List CAction :=
  [.readCount, .sleepMs, .writeCount]

/-- ThreadSafe and RateLimited counter path (server.py lines 212-216): the
same three steps bracketed by counter_lock. -/
def threadsafePath : List CAction :=
  [.lockAcquire, .readCount, .sleepMs, .writeCount, .lockRelease]

/-- Sequential execution configuration for one increment: the hit-counter
map, the local variable current_count, and whether counter_lock is held. -/
structure RunCfg where
  hits : String → Nat
  current_count : Nat
  lockHeld : Bool

/-- Effect of one action on the configuration, executed without
interleaving. -/
def stepAction (key : String) (c : RunCfg) : CAction → RunCfg
  | .lockAcquire => ⟨c.hits, c.current_count, true⟩
  | .lockRelease => ⟨c.hits, c.current_count, false⟩
  | .readCount => ⟨c.hits, c.hits key, c.lockHeld⟩
  | .sleepMs => c
  | .writeCount => ⟨setAt c.hits key (c.current_count + 1), c.current_count, c.lockHeld⟩

/-- Sequential denotation of a counter code path. -/
def runPath (key : String) (p : List CAction) (c : RunCfg) : RunCfg :=
  p.foldl (stepAction key) c

/-- Lock operations, the bypassed part of the race-mode path. -/
def isLockAction (a : CAction) : Bool :=
  a = CAction.lockAcquire ∨ a = CAction.lockRelease

/-! ## Concrete inputs used by witnesses and counterexamples -/

/-- Fresh shared state: no hits recorded, no timestamps recorded. -/
def st0 : SState := ⟨fun _ => 0, fun _ => []⟩

/-- A filesystem whose only entry is the directory /srv/d. -/
def fsDir : FileSystem :=
  ⟨fun p => p == "/srv/d", fun p => p == "/srv/d", fun _ => false⟩

/-- A filesystem whose only entry is the regular file /a/bc.html, a
sibling of the served root /a/b sharing its name as a string prefix. -/
def fsSibling : FileSystem :=
  ⟨fun p => p == "/a/bc.html", fun _ => false, fun _ => false⟩

/-- A filesystem whose only entry is the regular file /srv/notes.txt,
whose extension is unsupported. -/
def fsTxt : FileSystem :=
  ⟨fun p => p == "/srv/notes.txt", fun _ => false, fun _ => false⟩

/-- A filesystem with a servable file /srv/a.html and a directory /srv/d. -/
def fsMixed : FileSystem :=
  ⟨fun p => p == "/srv/a.html" || p == "/srv/d", fun p => p == "/srv/d",
   fun _ => false⟩

/-- Rate-limiter state holding five timestamps at time 0 for one address. -/
def rlFive : RateMap :=
  fun ip => if ip = "1.2.3.4" then [0, 0, 0, 0, 0] else []

/-- Shared state with a saturated rate-limit window for 1.2.3.4. -/
def stFive : SState := ⟨fun _ => 0, rlFive⟩

/-- A well-formed GET for /d. -/
def reqGetD : String := "GET /d HTTP/1.1\r\nHost: h\r\n\r\n"

/-- A well-formed GET for /a.html. -/
def reqGetA : String := "GET /a.html HTTP/1.1\r\n\r\n"

/-- A well-formed GET for /notes.txt. -/
def reqGetNotes : String := "GET /notes.txt HTTP/1.1\r\n\r\n"

/-- A traversal request whose resolved path /a/bc.html escapes the served
root /a/b while sharing its string prefix. -/
def reqTraversal : String := "GET /../bc.html HTTP/1.1\r\nHost: x\r\n\r\n"

/-- A POST request, whose method is not supported. -/
def reqPost : String := "POST /d HTTP/1.1\r\n\r\n"

/-- A traversal request whose resolved path /a/z.html fails even the
string-prefix containment test against the root /a/b. -/
def reqEscape : String := "GET /../z.html HTTP/1.1\r\n\r\n"

/-- The requested path contains a parent-directory segment. -/
def hasParentSegs (url : String) : Bool :=
  (splitSlash url).contains ".."

/-- An absolute path lies outside the directory tree rooted at rootAbs:
it is neither the root itself nor below it. -/
def outsideRoot (rootAbs pAbs : String) : Bool :=
  !(pAbs == rootAbs || pyStartsWith pAbs (rootAbs ++ "/"))

/-- One-thread run of the locked increment protocol: after the acquire. -/
def c1S1 : CState 1 := ⟨0, some 0, Function.update (initCState 1).phase 0 .locked⟩

/-- After the read of count 0. -/
def c1S2 : CState 1 := ⟨0, c1S1.holder, Function.update c1S1.phase 0 (.readDone 0)⟩

/-- After the write: one completed increment. -/
def c1S3 : CState 1 := ⟨1, none, Function.update c1S2.phase 0 .finished⟩

/-! ## Helper lemmas: handler branch characterizations -/

/-- A short request line yields the 400 response and leaves the shared
state untouched. -/
theorem handle_client_400 (mode : Mode) (fs : FileSystem) (cwd base_dir client_ip : String)
    (now : ℚ) (request : String) (st : SState)
    (h0 : request ≠ "") (h1 : (pySplit (firstLine request)).length < 2) :
    handle_client mode fs cwd base_dir client_ip now request st =
      ⟨some (resp 400 "text/plain" (.text "Bad Request")), st, [.respond 400]⟩ := by
  simp [handle_client, h0, h1]

/-- Outside ratelimit mode, a parsed request goes straight to the
post-parse pipeline. -/
theorem handle_client_other (mode : Mode) (fs : FileSystem) (cwd base_dir client_ip : String)
    (now : ℚ) (request : String) (st : SState)
    (hm : mode ≠ .ratelimit) (h0 : request ≠ "")
    (h1 : ¬ (pySplit (firstLine request)).length < 2) :
    handle_client mode fs cwd base_dir client_ip now request st =
      after_rate mode fs cwd base_dir ((pySplit (firstLine request)).headD "")
        (unquote ((pySplit (firstLine request)).getD 1 "")) st [] := by
  simp [handle_client, h0, h1, hm]

/-- In ratelimit mode a rejected check answers 429 at once, with the
limiter state stored and the counters untouched. -/
theorem handle_client_rejected (fs : FileSystem) (cwd base_dir client_ip : String)
    (now : ℚ) (request : String) (st : SState)
    (h0 : request ≠ "") (h1 : ¬ (pySplit (firstLine request)).length < 2)
    (hrl : (rate_limited now client_ip st.rateLimits).1 = true) :
    handle_client .ratelimit fs cwd base_dir client_ip now request st =
      ⟨some (resp 429 "text/plain" (.text "Too Many Requests")),
        ⟨st.fileHits, (rate_limited now client_ip st.rateLimits).2⟩,
        [.rateCheck true, .respond 429]⟩ := by
  simp [handle_client, h0, h1, hrl]

/-- In ratelimit mode an admitted check continues with the stored pruned
timestamps plus the new one. -/
theorem handle_client_admitted (fs : FileSystem) (cwd base_dir client_ip : String)
    (now : ℚ) (request : String) (st : SState)
    (h0 : request ≠ "") (h1 : ¬ (pySplit (firstLine request)).length < 2)
    (hrl : (rate_limited now client_ip st.rateLimits).1 = false) :
    handle_client .ratelimit fs cwd base_dir client_ip now request st =
      after_rate .ratelimit fs cwd base_dir ((pySplit (firstLine request)).headD "")
        (unquote ((pySplit (firstLine request)).getD 1 ""))
        ⟨st.fileHits, (rate_limited now client_ip st.rateLimits).2⟩ [.rateCheck false] := by
  simp [handle_client, h0, h1, hrl]

/-- A non-GET method answers 405. -/
theorem after_rate_405 (mode : Mode) (fs : FileSystem) (cwd base_dir : String)
    (method url_path : String) (st : SState) (ev0 : List Event)
    (hm : method ≠ "GET") :
    after_rate mode fs cwd base_dir method url_path st ev0 =
      ⟨some (resp 405 "text/plain" (.text "Method Not Allowed")), st, ev0 ++ [.respond 405]⟩ := by
  simp [after_rate, hm]

/-- A resolved path failing the string-prefix containment test answers
403 and leaves the shared state untouched. -/
theorem after_rate_403 (mode : Mode) (fs : FileSystem) (cwd base_dir : String)
    (method url_path : String) (st : SState) (ev0 : List Event)
    (hm : method = "GET")
    (hout : ¬ pyStartsWith (abspath cwd (resolved_path base_dir url_path))
      (abspath cwd base_dir) = true) :
    after_rate mode fs cwd base_dir method url_path st ev0 =
      ⟨some (resp 403 "text/html" (.text forbiddenBody)), st,
        ev0 ++ [.resolve (resolved_path base_dir url_path), .respond 403]⟩ := by
  simp [after_rate, hm, hout]

/-- A contained but missing path answers 404 and leaves the shared state
untouched. -/
theorem after_rate_404 (mode : Mode) (fs : FileSystem) (cwd base_dir : String)
    (method url_path : String) (st : SState) (ev0 : List Event)
    (hm : method = "GET")
    (hin : pyStartsWith (abspath cwd (resolved_path base_dir url_path))
      (abspath cwd base_dir) = true)
    (hex : fs.fexists (resolved_path base_dir url_path) = false) :
    after_rate mode fs cwd base_dir method url_path st ev0 =
      ⟨some (resp 404 "text/html" (.text notFoundBody)), st,
        ev0 ++ [.resolve (resolved_path base_dir url_path), .respond 404]⟩ := by
  simp [after_rate, hm, hin, hex]

/-- In single and multi mode an existing contained path is served with no
counter update. -/
theorem after_rate_nocounter (mode : Mode) (fs : FileSystem) (cwd base_dir : String)
    (method url_path : String) (st : SState) (ev0 : List Event)
    (hm : method = "GET")
    (hin : pyStartsWith (abspath cwd (resolved_path base_dir url_path))
      (abspath cwd base_dir) = true)
    (hex : fs.fexists (resolved_path base_dir url_path) = true)
    (hmode : mode = .single ∨ mode = .multi) :
    after_rate mode fs cwd base_dir method url_path st ev0 =
      ⟨some (serveResource fs (resolved_path base_dir url_path) url_path), st,
        ev0 ++ [.resolve (resolved_path base_dir url_path),
          .respond (serveResource fs (resolved_path base_dir url_path) url_path).status]⟩ := by
  simp [after_rate, hm, hin, hex, hmode]

/-- In the counter modes an existing contained path first gets its hit
count incremented, then is served. -/
theorem after_rate_counter (mode : Mode) (fs : FileSystem) (cwd base_dir : String)
    (method url_path : String) (st : SState) (ev0 : List Event)
    (hm : method = "GET")
    (hin : pyStartsWith (abspath cwd (resolved_path base_dir url_path))
      (abspath cwd base_dir) = true)
    (hex : fs.fexists (resolved_path base_dir url_path) = true)
    (hmode : ¬ (mode = .single ∨ mode = .multi)) :
    after_rate mode fs cwd base_dir method url_path st ev0 =
      ⟨some (serveResource fs (resolved_path base_dir url_path) url_path),
        ⟨setAt st.fileHits (resolved_path base_dir url_path)
          (st.fileHits (resolved_path base_dir url_path) + 1), st.rateLimits⟩,
        ev0 ++ [.resolve (resolved_path base_dir url_path),
          .counterInc (resolved_path base_dir url_path),
          .respond (serveResource fs (resolved_path base_dir url_path) url_path).status]⟩ := by
  simp [after_rate, hm, hin, hex, hmode]

/-! ## Helper lemmas: rate limiter -/

/-- Shorthand for the pruned timestamp list computed by rate_limited. -/
theorem rate_limited_reject (now : ℚ) (ip : String) (m : RateMap)
    (h : 5 ≤ ((m ip).filter (fun ts => decide (now - ts < 1))).length) :
    (rate_limited now ip m).1 = true ∧
    (rate_limited now ip m).2 ip = (m ip).filter (fun ts => decide (now - ts < 1)) := by
  simp [rate_limited, h, setAt]

/-- Below the limit the check admits and appends the new timestamp. -/
theorem rate_limited_admitted (now : ℚ) (ip : String) (m : RateMap)
    (h : ((m ip).filter (fun ts => decide (now - ts < 1))).length < 5) :
    (rate_limited now ip m).1 = false ∧
    (rate_limited now ip m).2 ip
      = (m ip).filter (fun ts => decide (now - ts < 1)) ++ [now] := by
  simp [rate_limited, Nat.not_le_of_lt h, setAt]

/-- A check for one address never rewrites another address's entry. -/
theorem rate_limited_other (now : ℚ) (ip j : String) (m : RateMap) (hj : j ≠ ip) :
    (rate_limited now ip m).2 j = m j := by
  simp only [rate_limited]
  split <;> simp [setAt, hj]

/-- Both the decision and the stored entry of a check depend only on the
checked address's own entry. -/
theorem rate_limited_congr (now : ℚ) (ip : String) (m m2 : RateMap)
    (h : m ip = m2 ip) :
    (rate_limited now ip m).1 = (rate_limited now ip m2).1 ∧
    (rate_limited now ip m).2 ip = (rate_limited now ip m2).2 ip := by
  simp only [rate_limited, h]
  split <;> simp [setAt]

/-- A window filter that keeps everything. -/
theorem filter_window_all (now : ℚ) (l : List ℚ) (h : ∀ ts ∈ l, now - ts < 1) :
    l.filter (fun ts => decide (now - ts < 1)) = l := by
  rw [List.filter_eq_self]
  intro a ha
  simpa using h a ha

/-- Dropping at least the head bounds the filtered length by the tail. -/
theorem filter_window_head_old (now : ℚ) (a : ℚ) (l : List ℚ) (h : ¬ now - a < 1) :
    ((a :: l).filter (fun ts => decide (now - ts < 1))).length ≤ l.length := by
  simp [List.filter_cons, h]
  exact List.length_filter_le _ l

/-! ## Helper lemmas: locked-counter invariant (C1) -/

/-- The completed-thread count is unchanged by an update that neither
finishes nor unfinishes a thread. -/
theorem doneCount_update_ne {n : Nat} (ph : Fin n → TPhase) (c : Nat) (h : Option (Fin n))
    (i : Fin n) (x : TPhase) (hold : ph i ≠ .finished) (hnew : x ≠ .finished) :
    doneCount (⟨c, h, Function.update ph i x⟩ : CState n)
      = doneCount (⟨c, h, ph⟩ : CState n) := by
  unfold doneCount
  congr 1
  apply Finset.filter_congr
  intro j _
  by_cases hj : j = i
  · subst hj
    simp [Function.update_same, hnew, hold]
  · simp [Function.update_noteq hj]

/-- Finishing a previously unfinished thread raises the completed count by
one. -/
theorem doneCount_update_finished {n : Nat} (ph : Fin n → TPhase) (c c2 : Nat)
    (h h2 : Option (Fin n)) (i : Fin n) (hold : ph i ≠ .finished) :
    doneCount (⟨c, h, Function.update ph i .finished⟩ : CState n)
      = doneCount (⟨c2, h2, ph⟩ : CState n) + 1 := by
  unfold doneCount
  have hset : (Finset.univ.filter
      (fun j => Function.update ph i TPhase.finished j = TPhase.finished))
      = insert i (Finset.univ.filter (fun j => ph j = TPhase.finished)) := by
    ext j
    by_cases hj : j = i
    · subst hj
      simp [Function.update_same]
    · simp [Function.update_noteq hj, hj]
  rw [hset, Finset.card_insert_of_not_mem]
  simp [hold]

/-- The invariant holds initially. -/
theorem cinv_init (n : Nat) : CInv (initCState n) := by
  refine ⟨?_, ?_, ?_, ?_, ?_⟩
  · simp [initCState, doneCount]
  · intro i hi
    simp [initCState] at hi
  · intro i v hi
    simp [initCState] at hi
  · intro i hi
    simp [initCState] at hi
  · intro _ j
    simp [initCState]

/-- The invariant is preserved by every interleaving step. -/
theorem cinv_step {n : Nat} (s s2 : CState n) (hstep : CStep s s2) (hinv : CInv s) :
    CInv s2 := by
  obtain ⟨hc, hlock, hread, hmutex, hfree⟩ := hinv
  cases hstep with
  | acquire i hh hp =>
    have hothers := hfree hh
    refine ⟨?_, ?_, ?_, ?_, ?_⟩
    · rw [doneCount_update_ne s.phase s.count (some i) i .locked
        (by simp [hp]) (by simp), hc]
      rfl
    · intro j hj
      dsimp only at hj ⊢
      rw [Function.update_apply] at hj
      by_cases hji : j = i
      · subst hji
        rfl
      · simp only [if_neg hji] at hj
        rcases hothers j with h2 | h2 <;> rw [h2] at hj <;> exact absurd hj (by simp)
    · intro j v hj
      dsimp only at hj
      rw [Function.update_apply] at hj
      by_cases hji : j = i
      · simp [hji] at hj
      · simp only [if_neg hji] at hj
        have hhj := (hread j v hj).1
        rw [hh] at hhj
        exact absurd hhj (by simp)
    · intro i2 hi2 j hji
      dsimp only at hi2 ⊢
      have hii : i = i2 := by
        simpa using hi2
      subst hii
      rw [Function.update_apply, if_neg hji]
      exact hothers j
    · intro hnone
      dsimp only at hnone
      simp at hnone
  | readCount i hh hp =>
    refine ⟨?_, ?_, ?_, ?_, ?_⟩
    · rw [doneCount_update_ne s.phase s.count s.holder i (.readDone s.count)
        (by simp [hp]) (by simp), hc]
      rfl
    · intro j hj
      dsimp only at hj ⊢
      rw [Function.update_apply] at hj
      by_cases hji : j = i
      · simp [hji] at hj
      · simp only [if_neg hji] at hj
        exact hlock j hj
    · intro j v hj
      dsimp only at hj ⊢
      rw [Function.update_apply] at hj
      by_cases hji : j = i
      · subst hji
        simp only [if_pos rfl] at hj
        have hv : v = s.count := by
          simpa using hj.symm
        exact ⟨hh, hv⟩
      · simp only [if_neg hji] at hj
        exact hread j v hj
    · intro i2 hi2 j hji
      dsimp only at hi2 ⊢
      have hii : i = i2 := by
        rw [hh] at hi2
        simpa using hi2
      subst hii
      rw [Function.update_apply, if_neg hji]
      exact hmutex i hh j hji
    · intro hnone
      dsimp only at hnone
      rw [hnone] at hh
      exact absurd hh (by simp)
  | writeCount i v hh hp =>
    have hvc : v = s.count := (hread i v hp).2
    have hfin : ∀ j, j ≠ i → s.phase j = .idle ∨ s.phase j = .finished :=
      hmutex i hh
    refine ⟨?_, ?_, ?_, ?_, ?_⟩
    · rw [doneCount_update_finished s.phase (v + 1) s.count none s.holder i
        (by simp [hp]), ← hc, hvc]
    · intro j hj
      dsimp only at hj ⊢
      rw [Function.update_apply] at hj
      by_cases hji : j = i
      · simp [hji] at hj
      · simp only [if_neg hji] at hj
        rcases hfin j hji with h2 | h2 <;> rw [h2] at hj <;> exact absurd hj (by simp)
    · intro j w hj
      dsimp only at hj ⊢
      rw [Function.update_apply] at hj
      by_cases hji : j = i
      · simp [hji] at hj
      · simp only [if_neg hji] at hj
        rcases hfin j hji with h2 | h2 <;> rw [h2] at hj <;> exact absurd hj (by simp)
    · intro i2 hi2
      dsimp only at hi2
      exact absurd hi2 (by simp)
    · intro _ j
      dsimp only
      rw [Function.update_apply]
      by_cases hji : j = i
      · simp [hji]
      · rw [if_neg hji]
        exact hfin j hji

/-- The invariant holds in every reachable state. -/
theorem cinv_reach {n : Nat} (s : CState n) (h : CReach n s) : CInv s := by
  induction h with
  | refl => exact cinv_init n
  | tail _ hstep ih => exact cinv_step _ _ hstep ih

/-- The saturated window rejects a check at time 1/2. -/
theorem rlFive_rejected_at_half :
    (rate_limited (1/2) "1.2.3.4" rlFive).1 = true := by
  have h : rlFive "1.2.3.4" = [0, 0, 0, 0, 0] := rfl
  refine (rate_limited_reject (1/2) "1.2.3.4" rlFive ?_).1
  rw [h, filter_window_all (1/2) [0, 0, 0, 0, 0] (by intro ts hts; simp at hts; rw [hts]; norm_num)]
  simp

/-! ## Claims -/

/-- C1: for every N, if N increment operations on the same key all run to
completion under the locked (ThreadSafe or RateLimited) counter protocol,
each executing the read-delay-write sequence while holding the counter
lock, then the stored count equals exactly N, whatever the interleaving of
the N concurrent callers. -/
theorem c1_locked_counter_exact (n : Nat) (s : CState n)
    (hreach : CReach n s) (hdone : ∀ i, s.phase i = TPhase.finished) :
    s.count = n := by
  obtain ⟨hc, _, _, _, _⟩ := cinv_reach s hreach
  rw [hc]
  unfold doneCount
  rw [Finset.filter_true_of_mem (fun j _ => hdone j)]
  simp

/-- C1 witness: a complete one-thread run reaches count 1. -/
theorem c1_locked_counter_exact_witness : c1S3.count = 1 := by
  have h1 : CStep (initCState 1) c1S1 := CStep.acquire (initCState 1) 0 rfl rfl
  have h2 : CStep c1S1 c1S2 := CStep.readCount c1S1 0 rfl rfl
  have h3 : CStep c1S2 c1S3 := CStep.writeCount c1S2 0 0 rfl (by decide)
  exact c1_locked_counter_exact 1 c1S3
    (Relation.ReflTransGen.head h1 (Relation.ReflTransGen.head h2
      (Relation.ReflTransGen.single h3)))
    (by decide)

/-- C2 counterexample: with five stored timestamps exactly one second old,
the claim's pruning rule (drop only the strictly older ones) keeps all
five and predicts Rejected, but rate_limited drops them and admits. -/
theorem c2_boundary_counterexample :
    5 ≤ (specPruned 1 (rlFive "1.2.3.4")).length ∧
    (rate_limited 1 "1.2.3.4" rlFive).1 = false := by
  constructor
  · have h : rlFive "1.2.3.4" = [0, 0, 0, 0, 0] := rfl
    rw [h]
    norm_num [specPruned, List.filter]
  · have h : rlFive "1.2.3.4" = [0, 0, 0, 0, 0] := rfl
    refine (rate_limited_admitted 1 "1.2.3.4" rlFive ?_).1
    rw [h]
    norm_num [List.filter]

/-- C2 (amended): check(address) first drops every stored timestamp aged
one second or more (now - ts at least 1), then: if the pruned sequence has
length at least 5 it returns Rejected and stores the pruned sequence
without appending the new timestamp; otherwise it appends now, stores the
result, and returns Admitted; entries of other addresses are untouched. -/
theorem c2_prune_and_branch (now : ℚ) (ip : String) (rl : RateMap) :
    (5 ≤ ((rl ip).filter (fun ts => decide (¬ 1 ≤ now - ts))).length →
      (rate_limited now ip rl).1 = true ∧
      (rate_limited now ip rl).2 ip
        = (rl ip).filter (fun ts => decide (¬ 1 ≤ now - ts))) ∧
    (((rl ip).filter (fun ts => decide (¬ 1 ≤ now - ts))).length < 5 →
      (rate_limited now ip rl).1 = false ∧
      (rate_limited now ip rl).2 ip
        = (rl ip).filter (fun ts => decide (¬ 1 ≤ now - ts)) ++ [now]) ∧
    (∀ j, j ≠ ip → (rate_limited now ip rl).2 j = rl j) := by
  have hfilt : (rl ip).filter (fun ts => decide (¬ 1 ≤ now - ts))
      = (rl ip).filter (fun ts => decide (now - ts < 1)) := by
    apply List.filter_congr
    intro a _
    simp [not_le]
  rw [hfilt]
  exact ⟨fun h => rate_limited_reject now ip rl h,
    fun h => rate_limited_admitted now ip rl h,
    fun j hj => rate_limited_other now ip j rl hj⟩

/-- C2 witness: the saturated window at time 1/2 takes the Rejected
branch, and a foreign address's entry is untouched. -/
theorem c2_prune_and_branch_witness :
    (rate_limited (1/2) "1.2.3.4" rlFive).1 = true ∧
    (rate_limited (1/2) "1.2.3.4" rlFive).2 "z" = [] := by
  have h := c2_prune_and_branch (1/2) "1.2.3.4" rlFive
  have hlen : 5 ≤ ((rlFive "1.2.3.4").filter
      (fun ts => decide (¬ 1 ≤ (1/2 : ℚ) - ts))).length := by
    have he : rlFive "1.2.3.4" = [0, 0, 0, 0, 0] := rfl
    rw [he]
    norm_num [List.filter]
  refine ⟨(h.1 hlen).1, ?_⟩
  rw [h.2.2 "z" (by decide)]
  rfl

/-- C7: the Race-mode counter path and the ThreadSafe-mode counter path
are the same read-sleep-write action sequence, the lock operations being
the only difference, and executed sequentially the two paths compute the
same function on the counter store, namely bumping the key by one. -/
theorem c7_race_threadsafe_same_function :
    threadsafePath.filter (fun a => ! isLockAction a) = racePath ∧
    ∀ (key : String) (hits : String → Nat) (cur : Nat) (lk : Bool),
      (runPath key racePath ⟨hits, cur, lk⟩).hits
        = (runPath key threadsafePath ⟨hits, cur, lk⟩).hits ∧
      (runPath key racePath ⟨hits, cur, lk⟩).hits
        = setAt hits key (hits key + 1) := by
  refine ⟨by decide, ?_⟩
  intro key hits cur lk
  exact ⟨rfl, rfl⟩

/-- Collapsing a double update at one key. -/
theorem setAt_setAt {α : Type} (m : String → α) (k : String) (v1 v2 : α) :
    setAt (setAt m k v1) k v2 = setAt m k v2 := by
  funext j
  by_cases h : j = k <;> simp [setAt, h]

/-- Full-map form of the Admitted branch, with the pruned and resulting
lists given explicitly. -/
theorem rate_limited_eq_admitted (now : ℚ) (ip : String) (m : RateMap) (pr res : List ℚ)
    (hpr : (m ip).filter (fun ts => decide (now - ts < 1)) = pr)
    (hlen : pr.length < 5) (hres : pr ++ [now] = res) :
    rate_limited now ip m = (false, setAt m ip res) := by
  simp only [rate_limited, hpr, if_neg (Nat.not_le_of_lt hlen), setAt_setAt, hres]

/-- Full-map form of the Rejected branch. -/
theorem rate_limited_eq_reject (now : ℚ) (ip : String) (m : RateMap) (pr : List ℚ)
    (hpr : (m ip).filter (fun ts => decide (now - ts < 1)) = pr)
    (hlen : 5 ≤ pr.length) :
    rate_limited now ip m = (true, setAt m ip pr) := by
  simp only [rate_limited, hpr, if_pos hlen]

/-- C6: for every source address, the first check ever is Admitted; a
burst of exactly 5 checks inside one rolling second is fully Admitted and
a 6th inside the same second is Rejected; once the oldest recorded
timestamp is more than one second old, the next check is Admitted again. -/
theorem c6_window_edges (ip : String) (rl : RateMap) (t1 t2 t3 t4 t5 t6 t7 : ℚ)
    (h0 : rl ip = [])
    (h12 : t1 ≤ t2) (h23 : t2 ≤ t3) (h34 : t3 ≤ t4) (h45 : t4 ≤ t5) (h56 : t5 ≤ t6)
    (hwin : t6 - t1 < 1) (hold : 1 < t7 - t1) :
    (rate_limited t1 ip rl).1 = false ∧
    (checkRun ip rl [t1, t2, t3, t4, t5]).1 = true ∧
    (rate_limited t6 ip (checkRun ip rl [t1, t2, t3, t4, t5]).2).1 = true ∧
    (rate_limited t7 ip
      (rate_limited t6 ip (checkRun ip rl [t1, t2, t3, t4, t5]).2).2).1 = false := by
  have r1 : rate_limited t1 ip rl = (false, setAt rl ip [t1]) :=
    rate_limited_eq_admitted t1 ip rl [] [t1] (by rw [h0]; rfl) (by norm_num) rfl
  have r2 : rate_limited t2 ip (setAt rl ip [t1])
      = (false, setAt rl ip [t1, t2]) := by
    rw [rate_limited_eq_admitted t2 ip (setAt rl ip [t1]) [t1] [t1, t2] ?hp (by norm_num) rfl,
      setAt_setAt]
    case hp =>
      have he : (setAt rl ip [t1]) ip = [t1] := by simp [setAt]
      rw [he]
      exact filter_window_all t2 [t1] (by
        intro ts hts
        simp at hts
        rw [hts]
        linarith)
  have r3 : rate_limited t3 ip (setAt rl ip [t1, t2])
      = (false, setAt rl ip [t1, t2, t3]) := by
    rw [rate_limited_eq_admitted t3 ip (setAt rl ip [t1, t2]) [t1, t2] [t1, t2, t3]
      ?hp (by norm_num) rfl, setAt_setAt]
    case hp =>
      have he : (setAt rl ip [t1, t2]) ip = [t1, t2] := by simp [setAt]
      rw [he]
      exact filter_window_all t3 [t1, t2] (by
        intro ts hts
        simp at hts
        rcases hts with h | h <;> rw [h] <;> linarith)
  have r4 : rate_limited t4 ip (setAt rl ip [t1, t2, t3])
      = (false, setAt rl ip [t1, t2, t3, t4]) := by
    rw [rate_limited_eq_admitted t4 ip (setAt rl ip [t1, t2, t3]) [t1, t2, t3]
      [t1, t2, t3, t4] ?hp (by norm_num) rfl, setAt_setAt]
    case hp =>
      have he : (setAt rl ip [t1, t2, t3]) ip = [t1, t2, t3] := by simp [setAt]
      rw [he]
      exact filter_window_all t4 [t1, t2, t3] (by
        intro ts hts
        simp at hts
        rcases hts with h | h | h <;> rw [h] <;> linarith)
  have r5 : rate_limited t5 ip (setAt rl ip [t1, t2, t3, t4])
      = (false, setAt rl ip [t1, t2, t3, t4, t5]) := by
    rw [rate_limited_eq_admitted t5 ip (setAt rl ip [t1, t2, t3, t4]) [t1, t2, t3, t4]
      [t1, t2, t3, t4, t5] ?hp (by norm_num) rfl, setAt_setAt]
    case hp =>
      have he : (setAt rl ip [t1, t2, t3, t4]) ip = [t1, t2, t3, t4] := by simp [setAt]
      rw [he]
      exact filter_window_all t5 [t1, t2, t3, t4] (by
        intro ts hts
        simp at hts
        rcases hts with h | h | h | h <;> rw [h] <;> linarith)
  have crun : checkRun ip rl [t1, t2, t3, t4, t5]
      = (true, setAt rl ip [t1, t2, t3, t4, t5]) := by
    simp only [checkRun, r1, Prod.snd, r2, r3, r4, r5, Bool.not_false, Bool.true_and,
      Bool.and_true, Bool.and_self]
  have r6 : rate_limited t6 ip (setAt rl ip [t1, t2, t3, t4, t5])
      = (true, setAt rl ip [t1, t2, t3, t4, t5]) := by
    rw [rate_limited_eq_reject t6 ip (setAt rl ip [t1, t2, t3, t4, t5])
      [t1, t2, t3, t4, t5] ?hp (by norm_num), setAt_setAt]
    case hp =>
      have he : (setAt rl ip [t1, t2, t3, t4, t5]) ip = [t1, t2, t3, t4, t5] := by
        simp [setAt]
      rw [he]
      exact filter_window_all t6 [t1, t2, t3, t4, t5] (by
        intro ts hts
        simp at hts
        rcases hts with h | h | h | h | h <;> rw [h] <;> linarith)
  have hdrop : ¬ (t7 - t1 < 1) := by linarith
  have klen : (((setAt rl ip [t1, t2, t3, t4, t5]) ip).filter
      (fun ts => decide (t7 - ts < 1))).length < 5 := by
    have he : (setAt rl ip [t1, t2, t3, t4, t5]) ip = [t1, t2, t3, t4, t5] := by
      simp [setAt]
    rw [he]
    exact lt_of_le_of_lt (filter_window_head_old t7 t1 [t2, t3, t4, t5] hdrop)
      (by norm_num)
  have r7 := rate_limited_admitted t7 ip (setAt rl ip [t1, t2, t3, t4, t5]) klen
  refine ⟨by rw [r1], by rw [crun], ?_, ?_⟩
  · rw [crun]
    rw [show ((true, setAt rl ip [t1, t2, t3, t4, t5]) : Bool × RateMap).2
      = setAt rl ip [t1, t2, t3, t4, t5] from rfl, r6]
  · rw [crun]
    rw [show ((true, setAt rl ip [t1, t2, t3, t4, t5]) : Bool × RateMap).2
      = setAt rl ip [t1, t2, t3, t4, t5] from rfl, r6]
    rw [show ((true, setAt rl ip [t1, t2, t3, t4, t5]) : Bool × RateMap).2
      = setAt rl ip [t1, t2, t3, t4, t5] from rfl]
    exact r7.1

/-- C6 witness: a fresh address, five checks at time 0, a sixth at time 0,
and a seventh at time 2. -/
theorem c6_window_edges_witness :
    (rate_limited 0 "10.0.0.1" (fun _ => [])).1 = false ∧
    (checkRun "10.0.0.1" (fun _ => []) [0, 0, 0, 0, 0]).1 = true ∧
    (rate_limited 0 "10.0.0.1"
      (checkRun "10.0.0.1" (fun _ => []) [0, 0, 0, 0, 0]).2).1 = true ∧
    (rate_limited 2 "10.0.0.1" (rate_limited 0 "10.0.0.1"
      (checkRun "10.0.0.1" (fun _ => []) [0, 0, 0, 0, 0]).2).2).1 = false :=
  c6_window_edges "10.0.0.1" (fun _ => []) 0 0 0 0 0 0 2 rfl (le_refl 0) (le_refl 0)
    (le_refl 0) (le_refl 0) (le_refl 0) (by norm_num) (by norm_num)

/-- C9: for distinct source addresses A and B, any sequence of checks for
B leaves A's stored timestamps untouched, and a subsequent check for A
decides exactly as it would have without B's checks: the decision depends
only on A's own recorded timestamps. -/
theorem c9_address_independence (a b : String) (hab : a ≠ b) (m : RateMap)
    (bs : List ℚ) (t : ℚ) :
    (checkRun b m bs).2 a = m a ∧
    (rate_limited t a ((checkRun b m bs).2)).1 = (rate_limited t a m).1 := by
  have hpres : ∀ (m2 : RateMap), (checkRun b m2 bs).2 a = m2 a := by
    induction bs with
    | nil => intro m2; rfl
    | cons x xs ih =>
      intro m2
      simp only [checkRun]
      rw [ih ((rate_limited x b m2).2)]
      exact rate_limited_other x b a m2 hab
  exact ⟨hpres m, (rate_limited_congr t a ((checkRun b m bs).2) m (hpres m)).1⟩

/-- C9 witness: six checks from address B do not change the verdict for
a first-time check from address A. -/
theorem c9_address_independence_witness :
    (checkRun "b" (fun _ => []) [0, 0, 0, 0, 0, 0]).2 "a" = [] ∧
    (rate_limited 0 "a" ((checkRun "b" (fun _ => []) [0, 0, 0, 0, 0, 0]).2)).1
      = (rate_limited 0 "a" (fun _ => [])).1 :=
  c9_address_independence "a" "b" (by decide) (fun _ => []) [0, 0, 0, 0, 0, 0] 0

/-- C4: in RateLimited mode, a request whose rate check rejects is
answered 429, the handler performs no path resolution, and the hit counter
entry of every key is unchanged. -/
theorem c4_rejected_leaves_counter (fs : FileSystem) (cwd base_dir ip : String)
    (now : ℚ) (request : String) (st : SState)
    (h0 : request ≠ "") (h1 : ¬ (pySplit (firstLine request)).length < 2)
    (hrl : (rate_limited now ip st.rateLimits).1 = true) :
    statusOf (handle_client .ratelimit fs cwd base_dir ip now request st) = some 429 ∧
    (∀ k, (handle_client .ratelimit fs cwd base_dir ip now request st).state.fileHits k
      = st.fileHits k) ∧
    (∀ p, Event.resolve p ∉
      (handle_client .ratelimit fs cwd base_dir ip now request st).events) := by
  rw [handle_client_rejected fs cwd base_dir ip now request st h0 h1 hrl]
  refine ⟨rfl, fun k => rfl, fun p hp => ?_⟩
  simp at hp

/-- C4 witness: a GET from a saturated address gets 429 and the counter
for its target stays at zero. -/
theorem c4_rejected_leaves_counter_witness :
    statusOf (handle_client .ratelimit fsDir "/" "/srv" "1.2.3.4" (1/2) reqGetD stFive)
      = some 429 ∧
    (handle_client .ratelimit fsDir "/" "/srv" "1.2.3.4" (1/2) reqGetD stFive).state.fileHits
      "/srv/d" = 0 := by
  have h := c4_rejected_leaves_counter fsDir "/" "/srv" "1.2.3.4" (1/2) reqGetD stFive
    (by decide) (by decide) rlFive_rejected_at_half
  refine ⟨h.1, ?_⟩
  rw [h.2.1 "/srv/d"]
  rfl

/-- C10: in RateLimited mode the rate check runs before the method check:
any parsed request that the limiter rejects is answered 429, whatever its
method; and a 405 answer is only possible when the limiter admitted. -/
theorem c10_rate_check_first (fs : FileSystem) (cwd base_dir ip : String)
    (now : ℚ) (request : String) (st : SState)
    (h0 : request ≠ "") (h1 : ¬ (pySplit (firstLine request)).length < 2) :
    ((rate_limited now ip st.rateLimits).1 = true →
      statusOf (handle_client .ratelimit fs cwd base_dir ip now request st) = some 429) ∧
    (statusOf (handle_client .ratelimit fs cwd base_dir ip now request st) = some 405 →
      (rate_limited now ip st.rateLimits).1 = false) := by
  constructor
  · intro hrl
    rw [handle_client_rejected fs cwd base_dir ip now request st h0 h1 hrl]
    rfl
  · intro h405
    cases hb : (rate_limited now ip st.rateLimits).1
    · rfl
    · rw [handle_client_rejected fs cwd base_dir ip now request st h0 h1 hb] at h405
      simp [statusOf, resp] at h405

/-- C10 witness: a saturated POST gets 429, not 405. -/
theorem c10_rate_check_first_witness :
    statusOf (handle_client .ratelimit fsDir "/" "/srv" "1.2.3.4" (1/2) reqPost stFive)
      = some 429 ∧
    (pySplit (firstLine reqPost)).headD "" = "POST" := by
  refine ⟨?_, by decide⟩
  exact (c10_rate_check_first fsDir "/" "/srv" "1.2.3.4" (1/2) reqPost stFive
    (by decide) (by decide)).1 rlFive_rejected_at_half

/-- C3 counterexample: in Race mode a request resolving to a directory is
served as a listing with status 200, and the hit counter for the
directory key IS incremented (from 0 to 1), although the claim says a
directory target must not be counted. -/
theorem c3_directory_counted_counterexample :
    fsDir.isDir (resolved_path "/srv" "/d") = true ∧
    statusOf (handle_client .race fsDir "/" "/srv" "1.2.3.4" 0 reqGetD st0) = some 200 ∧
    st0.fileHits (resolved_path "/srv" "/d") = 0 ∧
    (handle_client .race fsDir "/" "/srv" "1.2.3.4" 0 reqGetD st0).state.fileHits
      (resolved_path "/srv" "/d") = 1 := by
  exact ⟨by decide, by decide, rfl, by decide⟩

/-- C3 (amended): in Race, ThreadSafe, and RateLimited modes (the latter
when the rate check admits), the hit counter keyed by the resolved path is
incremented by exactly one, before responding, for every request whose
resolved target exists inside the root: whether the target is a file or a
directory.  Directory listing requests do increment the counter of the
directory itself; no other key changes. -/
theorem c3_counter_increment_on_existing (mode : Mode) (fs : FileSystem)
    (cwd base_dir ip : String) (now : ℚ) (request : String) (st : SState)
    (hmode : ¬ (mode = .single ∨ mode = .multi))
    (h0 : request ≠ "") (h1 : ¬ (pySplit (firstLine request)).length < 2)
    (hadm : mode = .ratelimit → (rate_limited now ip st.rateLimits).1 = false)
    (hget : (pySplit (firstLine request)).headD "" = "GET")
    (hin : pyStartsWith (abspath cwd (resolved_path base_dir
      (unquote ((pySplit (firstLine request)).getD 1 ""))))
      (abspath cwd base_dir) = true)
    (hex : fs.fexists (resolved_path base_dir
      (unquote ((pySplit (firstLine request)).getD 1 ""))) = true) :
    (handle_client mode fs cwd base_dir ip now request st).state.fileHits
      (resolved_path base_dir (unquote ((pySplit (firstLine request)).getD 1 "")))
      = st.fileHits (resolved_path base_dir
        (unquote ((pySplit (firstLine request)).getD 1 ""))) + 1 ∧
    (∀ k, k ≠ resolved_path base_dir (unquote ((pySplit (firstLine request)).getD 1 "")) →
      (handle_client mode fs cwd base_dir ip now request st).state.fileHits k
        = st.fileHits k) ∧
    (handle_client mode fs cwd base_dir ip now request st).events
      = (if mode = .ratelimit then [Event.rateCheck false] else [])
        ++ [Event.resolve (resolved_path base_dir
              (unquote ((pySplit (firstLine request)).getD 1 ""))),
            Event.counterInc (resolved_path base_dir
              (unquote ((pySplit (firstLine request)).getD 1 ""))),
            Event.respond (serveResource fs
              (resolved_path base_dir (unquote ((pySplit (firstLine request)).getD 1 "")))
              (unquote ((pySplit (firstLine request)).getD 1 ""))).status] := by
  by_cases hm : mode = .ratelimit
  · subst hm
    rw [handle_client_admitted fs cwd base_dir ip now request st h0 h1 (hadm rfl)]
    rw [after_rate_counter .ratelimit fs cwd base_dir _ _ _ _ hget hin hex (by decide)]
    refine ⟨by simp [setAt], fun k hk => ?_, by simp⟩
    simp only [setAt]
    rw [if_neg hk]
  · rw [handle_client_other mode fs cwd base_dir ip now request st hm h0 h1]
    rw [after_rate_counter mode fs cwd base_dir _ _ _ _ hget hin hex hmode]
    refine ⟨by simp [setAt], fun k hk => ?_, by simp [hm]⟩
    simp only [setAt]
    rw [if_neg hk]

/-- C3 witness: a threadsafe-mode GET for an existing file bumps its
counter from 0 to 1 and leaves a foreign key unchanged. -/
theorem c3_counter_increment_on_existing_witness :
    (handle_client .threadsafe fsMixed "/" "/srv" "1.2.3.4" 0 reqGetA st0).state.fileHits
      (resolved_path "/srv" "/a.html")
      = st0.fileHits (resolved_path "/srv" "/a.html") + 1 ∧
    (handle_client .threadsafe fsMixed "/" "/srv" "1.2.3.4" 0 reqGetA st0).state.fileHits
      "/srv/other" = st0.fileHits "/srv/other" := by
  have h := c3_counter_increment_on_existing .threadsafe fsMixed "/" "/srv" "1.2.3.4" 0
    reqGetA st0 (by decide) (by decide) (by decide) (by decide) (by decide)
    (by decide) (by decide)
  exact ⟨h.1, h.2.1 "/srv/other" (by decide)⟩

/-- C5 counterexample: the request GET /../bc.html contains a
parent-directory segment and resolves to /a/bc.html, which lies outside
the served root /a/b, yet the unified server serves it with 200 instead of
403, because /a/bc.html shares the string prefix /a/b. -/
theorem c5_escape_served_counterexample :
    hasParentSegs (unquote ((pySplit (firstLine reqTraversal)).getD 1 "")) = true ∧
    outsideRoot (abspath "/" "/a/b")
      (abspath "/" (resolved_path "/a/b"
        (unquote ((pySplit (firstLine reqTraversal)).getD 1 "")))) = true ∧
    statusOf (handle_client .multi fsSibling "/" "/a/b" "9.9.9.9" 0 reqTraversal st0)
      = some 200 := by
  exact ⟨by decide, by decide, by decide⟩

/-- C5 (amended): in every mode and in every server variant, a GET whose
resolved absolute path does not begin, as a string, with the served
root's absolute path is answered 403 (in RateLimited mode, provided the
rate check admits).  The containment test is a string-prefix comparison,
so a path resolving outside the root that shares the root's string
prefix is not rejected. -/
theorem c5_prefix_check_forbidden :
    (∀ (mode : Mode) (fs : FileSystem) (cwd base_dir ip : String) (now : ℚ)
        (request : String) (st : SState),
      request ≠ "" → ¬ (pySplit (firstLine request)).length < 2 →
      (mode = .ratelimit → (rate_limited now ip st.rateLimits).1 = false) →
      (pySplit (firstLine request)).headD "" = "GET" →
      ¬ pyStartsWith (abspath cwd (resolved_path base_dir
          (unquote ((pySplit (firstLine request)).getD 1 ""))))
        (abspath cwd base_dir) = true →
      statusOf (handle_client mode fs cwd base_dir ip now request st) = some 403) ∧
    (∀ (fs : FileSystem) (cwd base_dir request : String),
      request ≠ "" → ¬ (pySplit (firstLine request)).length < 2 →
      (pySplit (firstLine request)).headD "" = "GET" →
      ¬ pyStartsWith (abspath cwd (resolved_path base_dir
          (unquote ((pySplit (firstLine request)).getD 1 ""))))
        (abspath cwd base_dir) = true →
      (handle_client_mt fs cwd base_dir request).map Resp.status = some 403) ∧
    (∀ (fs : FileSystem) (cwd base_dir request : String),
      request ≠ "" → ¬ (pySplit (firstLine request)).length < 2 →
      (pySplit (firstLine request)).headD "" = "GET" →
      ¬ (unquote ((pySplit (firstLine request)).getD 1 "") = "/" ∧
        ¬ fs.fexists (pyJoin base_dir "index.html") = true) →
      ¬ pyStartsWith (abspath cwd (normpath (pyJoin base_dir (lstripSlash
          (if unquote ((pySplit (firstLine request)).getD 1 "") = "/" then "/index.html"
           else unquote ((pySplit (firstLine request)).getD 1 ""))))))
        (abspath cwd base_dir) = true →
      (handle_request_l1 fs cwd base_dir request).map Resp.status = some 403) := by
  refine ⟨?_, ?_, ?_⟩
  · intro mode fs cwd base_dir ip now request st h0 h1 hadm hget hout
    by_cases hm : mode = .ratelimit
    · subst hm
      rw [handle_client_admitted fs cwd base_dir ip now request st h0 h1 (hadm rfl)]
      rw [after_rate_403 .ratelimit fs cwd base_dir _ _ _ _ hget hout]
      rfl
    · rw [handle_client_other mode fs cwd base_dir ip now request st hm h0 h1]
      rw [after_rate_403 mode fs cwd base_dir _ _ _ _ hget hout]
      rfl
  · intro fs cwd base_dir request h0 h1 hget hout
    simp only [handle_client_mt]
    rw [if_neg h0, if_neg h1, if_neg (fun h => h hget), resolved_path] at *
    rw [if_pos hout]
    rfl
  · intro fs cwd base_dir request h0 h1 hget hroot hout
    simp only [handle_request_l1]
    rw [if_neg h0, if_neg h1, if_neg (fun h => h hget), if_neg hroot, if_pos hout]
    rfl

/-- C5 witness: GET /../z.html against root /a/b resolves to /a/z.html,
which fails the prefix test, and all three handlers answer 403. -/
theorem c5_prefix_check_forbidden_witness :
    statusOf (handle_client .multi fsSibling "/" "/a/b" "9.9.9.9" 0 reqEscape st0)
      = some 403 ∧
    (handle_client_mt fsSibling "/" "/a/b" reqEscape).map Resp.status = some 403 ∧
    (handle_request_l1 fsSibling "/" "/a/b" reqEscape).map Resp.status = some 403 := by
  refine ⟨?_, ?_, ?_⟩
  · exact c5_prefix_check_forbidden.1 .multi fsSibling "/" "/a/b" "9.9.9.9" 0 reqEscape st0
      (by decide) (by decide) (by decide) (by decide) (by decide)
  · exact c5_prefix_check_forbidden.2.1 fsSibling "/" "/a/b" reqEscape
      (by decide) (by decide) (by decide) (by decide)
  · exact c5_prefix_check_forbidden.2.2 fsSibling "/" "/a/b" reqEscape
      (by decide) (by decide) (by decide) (by decide) (by decide)

/-- Case analysis of the post-parse pipeline's response. -/
theorem after_rate_response_cases (mode : Mode) (fs : FileSystem) (cwd base_dir : String)
    (method url_path : String) (st : SState) (ev0 : List Event) :
    (method ≠ "GET" →
      (after_rate mode fs cwd base_dir method url_path st ev0).response
        = some (resp 405 "text/plain" (.text "Method Not Allowed"))) ∧
    (method = "GET" →
      pyStartsWith (abspath cwd (resolved_path base_dir url_path))
        (abspath cwd base_dir) = true →
      ((fs.fexists (resolved_path base_dir url_path) = false →
        (after_rate mode fs cwd base_dir method url_path st ev0).response
          = some (resp 404 "text/html" (.text notFoundBody))) ∧
      (fs.fexists (resolved_path base_dir url_path) = true →
        ((fs.isDir (resolved_path base_dir url_path) = true →
          (after_rate mode fs cwd base_dir method url_path st ev0).response
            = some (resp 200 "text/html"
                (.dirListing (resolved_path base_dir url_path) url_path))) ∧
        (fs.isDir (resolved_path base_dir url_path) = false →
          ((supportedExts.contains (lowerStr (pySuffix (resolved_path base_dir url_path)))
              = false →
            (after_rate mode fs cwd base_dir method url_path st ev0).response
              = some (resp 404 "text/html" (.text unsupportedBody))) ∧
          (supportedExts.contains (lowerStr (pySuffix (resolved_path base_dir url_path)))
              = true →
            ((fs.readFails (resolved_path base_dir url_path) = true →
              (after_rate mode fs cwd base_dir method url_path st ev0).response
                = some (resp 500 "text/plain"
                    (.faultMsg (resolved_path base_dir url_path)))) ∧
            (fs.readFails (resolved_path base_dir url_path) = false →
              (after_rate mode fs cwd base_dir method url_path st ev0).response
                = some (resp 200 (get_content_type (resolved_path base_dir url_path))
                    (.fileData (resolved_path base_dir url_path)))))))))))) := by
  constructor
  · intro hm
    rw [after_rate_405 mode fs cwd base_dir method url_path st ev0 hm]
  · intro hm hin
    constructor
    · intro hex
      rw [after_rate_404 mode fs cwd base_dir method url_path st ev0 hm hin hex]
    · intro hex
      have hserve : (after_rate mode fs cwd base_dir method url_path st ev0).response
          = some (serveResource fs (resolved_path base_dir url_path) url_path) := by
        by_cases hmode : mode = .single ∨ mode = .multi
        · rw [after_rate_nocounter mode fs cwd base_dir method url_path st ev0 hm hin hex hmode]
        · rw [after_rate_counter mode fs cwd base_dir method url_path st ev0 hm hin hex hmode]
      rw [hserve]
      constructor
      · intro hdir
        simp [serveResource, hdir, resp]
      · intro hdir
        constructor
        · intro hsup
          have hsup2 : lowerStr (pySuffix (resolved_path base_dir url_path)) ∉
              supportedExts := by simpa using hsup
          simp [serveResource, hdir, hsup2, resp]
        · intro hsup
          have hsup2 : lowerStr (pySuffix (resolved_path base_dir url_path)) ∈
              supportedExts := by simpa using hsup
          constructor
          · intro hrf
            simp [serveResource, hdir, hsup2, hrf, resp]
          · intro hrf
            simp [serveResource, hdir, hsup2, hrf, resp]

/-- C8 counterexample: in RateLimited mode a request whose method is POST
(not GET) but whose source address has exhausted its window is answered
429, not the 405 the claim assigns to every non-GET request. -/
theorem c8_nonget_answered_429_counterexample :
    (pySplit (firstLine reqPost)).headD "" = "POST" ∧
    statusOf (handle_client .ratelimit fsDir "/" "/srv" "1.2.3.4" (1/2) reqPost stFive)
      = some 429 := by
  refine ⟨by decide, ?_⟩
  rw [handle_client_rejected fsDir "/" "/srv" "1.2.3.4" (1/2) reqPost stFive
    (by decide) (by decide) rlFive_rejected_at_half]
  rfl

/-- C8 (amended): in every mode, each request outcome maps to exactly one
status, with the rate check of RateLimited mode taking precedence over
method validation: a malformed request line yields 400; a method other
than GET yields 405 provided the rate check admitted; a resolved existing
path is handled per outcome — missing path 404, existing non-directory
with unsupported extension 404 with a body distinguishing unsupported
type from not found, read fault 500, and every successful outcome
(directory listing or supported file) 200. -/
theorem c8_status_mapping (mode : Mode) (fs : FileSystem) (cwd base_dir ip : String)
    (now : ℚ) (request : String) (st : SState)
    (h0 : request ≠ "")
    (hadm : mode = .ratelimit → (rate_limited now ip st.rateLimits).1 = false) :
    ((pySplit (firstLine request)).length < 2 →
      statusOf (handle_client mode fs cwd base_dir ip now request st) = some 400) ∧
    (¬ (pySplit (firstLine request)).length < 2 →
      (((pySplit (firstLine request)).headD "" ≠ "GET" →
        statusOf (handle_client mode fs cwd base_dir ip now request st) = some 405) ∧
      ((pySplit (firstLine request)).headD "" = "GET" →
        pyStartsWith (abspath cwd (resolved_path base_dir
            (unquote ((pySplit (firstLine request)).getD 1 ""))))
          (abspath cwd base_dir) = true →
        ((fs.fexists (resolved_path base_dir
            (unquote ((pySplit (firstLine request)).getD 1 ""))) = false →
          (handle_client mode fs cwd base_dir ip now request st).response
            = some (resp 404 "text/html" (.text notFoundBody))) ∧
        (fs.fexists (resolved_path base_dir
            (unquote ((pySplit (firstLine request)).getD 1 ""))) = true →
          ((fs.isDir (resolved_path base_dir
              (unquote ((pySplit (firstLine request)).getD 1 ""))) = true →
            statusOf (handle_client mode fs cwd base_dir ip now request st) = some 200) ∧
          (fs.isDir (resolved_path base_dir
              (unquote ((pySplit (firstLine request)).getD 1 ""))) = false →
            ((supportedExts.contains (lowerStr (pySuffix (resolved_path base_dir
                (unquote ((pySplit (firstLine request)).getD 1 ""))))) = false →
              (handle_client mode fs cwd base_dir ip now request st).response
                = some (resp 404 "text/html" (.text unsupportedBody)) ∧
              unsupportedBody ≠ notFoundBody) ∧
            (supportedExts.contains (lowerStr (pySuffix (resolved_path base_dir
                (unquote ((pySplit (firstLine request)).getD 1 ""))))) = true →
              ((fs.readFails (resolved_path base_dir
                  (unquote ((pySplit (firstLine request)).getD 1 ""))) = true →
                statusOf (handle_client mode fs cwd base_dir ip now request st)
                  = some 500) ∧
              (fs.readFails (resolved_path base_dir
                  (unquote ((pySplit (firstLine request)).getD 1 ""))) = false →
                statusOf (handle_client mode fs cwd base_dir ip now request st)
                  = some 200))))))))))) := by
  constructor
  · intro h1
    rw [handle_client_400 mode fs cwd base_dir ip now request st h0 h1]
    rfl
  · intro h1
    have key : ∀ (st2 : SState) (ev : List Event),
        handle_client mode fs cwd base_dir ip now request st
          = after_rate mode fs cwd base_dir ((pySplit (firstLine request)).headD "")
            (unquote ((pySplit (firstLine request)).getD 1 "")) st2 ev →
        (((pySplit (firstLine request)).headD "" ≠ "GET" →
          statusOf (handle_client mode fs cwd base_dir ip now request st) = some 405) ∧
        ((pySplit (firstLine request)).headD "" = "GET" →
          pyStartsWith (abspath cwd (resolved_path base_dir
              (unquote ((pySplit (firstLine request)).getD 1 ""))))
            (abspath cwd base_dir) = true →
          ((fs.fexists (resolved_path base_dir
              (unquote ((pySplit (firstLine request)).getD 1 ""))) = false →
            (handle_client mode fs cwd base_dir ip now request st).response
              = some (resp 404 "text/html" (.text notFoundBody))) ∧
          (fs.fexists (resolved_path base_dir
              (unquote ((pySplit (firstLine request)).getD 1 ""))) = true →
            ((fs.isDir (resolved_path base_dir
                (unquote ((pySplit (firstLine request)).getD 1 ""))) = true →
              statusOf (handle_client mode fs cwd base_dir ip now request st)
                = some 200) ∧
            (fs.isDir (resolved_path base_dir
                (unquote ((pySplit (firstLine request)).getD 1 ""))) = false →
              ((supportedExts.contains (lowerStr (pySuffix (resolved_path base_dir
                  (unquote ((pySplit (firstLine request)).getD 1 ""))))) = false →
                (handle_client mode fs cwd base_dir ip now request st).response
                  = some (resp 404 "text/html" (.text unsupportedBody)) ∧
                unsupportedBody ≠ notFoundBody) ∧
              (supportedExts.contains (lowerStr (pySuffix (resolved_path base_dir
                  (unquote ((pySplit (firstLine request)).getD 1 ""))))) = true →
                ((fs.readFails (resolved_path base_dir
                    (unquote ((pySplit (firstLine request)).getD 1 ""))) = true →
                  statusOf (handle_client mode fs cwd base_dir ip now request st)
                    = some 500) ∧
                (fs.readFails (resolved_path base_dir
                    (unquote ((pySplit (firstLine request)).getD 1 ""))) = false →
                  statusOf (handle_client mode fs cwd base_dir ip now request st)
                    = some 200)))))))))) := by
      intro st2 ev heq
      have hcases := after_rate_response_cases mode fs cwd base_dir
        ((pySplit (firstLine request)).headD "")
        (unquote ((pySplit (firstLine request)).getD 1 "")) st2 ev
      refine ⟨?_, ?_⟩
      · intro hm
        rw [statusOf, heq, hcases.1 hm]
        rfl
      · intro hm hin
        have hc2 := hcases.2 hm hin
        refine ⟨?_, ?_⟩
        · intro hex
          rw [heq, (hc2.1 hex)]
        · intro hex
          have hc3 := hc2.2 hex
          refine ⟨?_, ?_⟩
          · intro hdir
            rw [statusOf, heq, hc3.1 hdir]
            rfl
          · intro hdir
            have hc4 := hc3.2 hdir
            refine ⟨?_, ?_⟩
            · intro hsup
              exact ⟨by rw [heq, hc4.1 hsup], by decide⟩
            · intro hsup
              have hc5 := hc4.2 hsup
              refine ⟨?_, ?_⟩
              · intro hrf
                rw [statusOf, heq, hc5.1 hrf]
                rfl
              · intro hrf
                rw [statusOf, heq, hc5.2 hrf]
                rfl
    by_cases hm : mode = .ratelimit
    · subst hm
      exact key ⟨st.fileHits, (rate_limited now ip st.rateLimits).2⟩ [.rateCheck false]
        (handle_client_admitted fs cwd base_dir ip now request st h0 h1 (hadm rfl))
    · exact key st []
        (handle_client_other mode fs cwd base_dir ip now request st hm h0 h1)

/-- C8 witness: a GET for an existing .txt file in threadsafe mode gets
the unsupported-type 404, whose body differs from the missing-file 404
body. -/
theorem c8_status_mapping_witness :
    (handle_client .threadsafe fsTxt "/" "/srv" "8.8.8.8" 0 reqGetNotes st0).response
      = some (resp 404 "text/html" (.text unsupportedBody)) ∧
    unsupportedBody ≠ notFoundBody := by
  have h := c8_status_mapping .threadsafe fsTxt "/" "/srv" "8.8.8.8" 0 reqGetNotes st0
    (by decide) (by decide)
  exact ((((h.2 (by decide)).2 (by decide) (by decide)).2 (by decide)).2
    (by decide)).1 (by decide)
